import Mathlib

/-!
Verification of the Reactr Wasm host-embedding layer and scheduler glue.

This file is a shallow embedding of the Go source:
- the `rwasm` environment/instance pool (`instanceAtIndex`, `addInstance`,
  `useInstance`, `setupNewIdentifier`, `removeIdentifier`,
  `instanceForIdentifier`, `setFFIResult`, `useFFIResult`, `readMemory`),
- the `graphql_query` host function from `rwasm/api`,
- the reply classification performed by `Reactr.Listen` in `rt`.

Go slices are modelled as `List`, Go `int`/`int32` as `Int` (index arithmetic
kept exact; all source indices fit well below 2^31 in the scenarios stated),
`[]byte` values as `List Nat`, `nil`-able byte slices as `Option (List Nat)`,
`error` returns as `Except String`, and a Go runtime panic (out-of-bounds
slice access, negative `make` length) as `Option.none` at the outermost
layer of the function result.  The process-wide `sync.Map` identifier
registry and the `environments` map are association lists.
-/

/-- Bytes of a Go `[]byte` value. -/
abbrev Bytes := List Nat

/-- A Wasm instance: an identity tag standing for the underlying
`wasmer.Instance` pointer, plus the mutable `ffiResult` field
(`none` models the Go `nil` slice). -/
structure wasmInstance where
  instTag : Nat
  ffiResult : Option Bytes
deriving DecidableEq, Repr

/-- Model of `instanceReference` from the source: a pointer into the global
environments map and the instance array within the environment. -/
structure instanceReference where
  EnvUUID : String
  InstIndex : Int
deriving DecidableEq, Repr

/-- Model of `wasmEnvironment`: the module/store/imports fields are irrelevant to the
claims and are dropped; what remains is the UUID, the instance pool and the
round-robin cursor `instIndex`. -/
structure wasmEnvironment where
  UUID : String
  instances : List wasmInstance
  instIndex : Int
deriving DecidableEq, Repr

/-- Go slice indexing `l[i]` with an `int` index: a negative or too-large
index is a runtime panic, modelled as `none`. -/
def sliceGet (l : List α) (i : Int) : Option α :=
  if 0 ≤ i then l.get? i.toNat else none

/-- Model of `instanceAtIndex` from the source, verbatim guard:
`if len(w.instances) <= idx-1 { return nil, error }` and then the
(possibly panicking) access `w.instances[idx]`.
`some (.error e)` is an error return, `some (.ok inst)` a successful
return, `none` a panic. -/
def instanceAtIndex (instances : List wasmInstance) (idx : Int) :
    Option (Except String wasmInstance) :=
  if (instances.length : Int) ≤ idx - 1 then
    some (.error "invalid instance index")
  else
    (sliceGet instances idx).map Except.ok

/-- Model of `readMemory` from the source.  `memExport = none` models a missing or
failed `memory` export lookup (the source returns an empty slice).
Otherwise the source takes `data := memory.Data()[pointer:]`, allocates
`make([]byte, size)` and copies `size` bytes from `data` in a loop with no
bounds check; a slice expression with a pointer outside `[0, len]`, a
negative `make` length, or a loop read past `len(data)` is a panic
(`none`). -/
def readMemory (memExport : Option Bytes) (pointer size : Int) :
    Option Bytes :=
  match memExport with
  | none => some []
  | some mem =>
    if pointer < 0 ∨ (mem.length : Int) < pointer then none
    else if size < 0 then none
    else if size ≤ ((mem.drop pointer.toNat).length : Int) then
      some ((mem.drop pointer.toNat).take size.toNat)
    else none

theorem instanceAtIndex_ok_of_lt (instances : List wasmInstance) (idx : Int)
    (h0 : 0 ≤ idx) (hlt : idx < (instances.length : Int)) :
    instanceAtIndex instances idx =
      (instances.get? idx.toNat).map Except.ok := by
  unfold instanceAtIndex sliceGet
  rw [if_neg (by omega), if_pos h0]

/-- C2.  The claim states `instanceAtIndex(idx)` errors exactly when
`idx < 0 ∨ idx ≥ len(instances)` and never accesses out of bounds.  The
source guard is `len(instances) <= idx-1`, which lets `idx = len(instances)`
through: on a pool of one instance, `instanceAtIndex 1` passes the guard and
performs the out-of-bounds access `instances[1]` (a panic, `none`), instead
of returning an error; likewise `idx = -1` panics instead of erroring.
This theorem evaluates the source at those failing inputs. -/
theorem instanceAtIndex_off_by_one :
    instanceAtIndex [⟨0, none⟩] 1 = none ∧
    instanceAtIndex [⟨0, none⟩] (-1) = none ∧
    instanceAtIndex [] 1 = some (.error "invalid instance index") := by
  refine ⟨?_, ?_, ?_⟩ <;> rfl

/-- C3.  The claim states `readMemory(ptr, size)` rejects
`pointer + size > memory_size` with a Fatal error.  The source has no bounds
check at all: with a one-byte memory, `readMemory 0 2` walks off the end of
the slice and panics (`none`) — it neither truncates nor returns an error
value.  The in-bounds case does copy exactly `size` bytes from `pointer`. -/
theorem readMemory_no_bounds_check :
    readMemory (some [10, 20, 30]) 1 2 = some [20, 30] ∧
    readMemory (some [10]) 0 2 = none := by
  exact ⟨rfl, rfl⟩

/-- The `instanceMapper` sync.Map: an association list from the random
int32 identifier to an `instanceReference`. -/
abbrev InstanceMapper := List (Int × instanceReference)

/-- Model of `instanceMapper.Load`. -/
def mapperLoad (m : InstanceMapper) (ident : Int) : Option instanceReference :=
  (m.find? (fun p => p.1 == ident)).map (·.2)

/-- Model of `instanceMapper.Store`: replaces any existing entry for the key. -/
def mapperStore (m : InstanceMapper) (ident : Int) (ref : instanceReference) :
    InstanceMapper :=
  (ident, ref) :: m.filter (fun p => p.1 != ident)

/-- Model of `removeIdentifier` from the source: `instanceMapper.Delete(ident)`. -/
def removeIdentifier (m : InstanceMapper) (ident : Int) : InstanceMapper :=
  m.filter (fun p => p.1 != ident)

/-- Model of `setupNewIdentifier` from the source.  The `for` loop draws random
candidates from `randomIdentifier`; the draws are modelled as the input
stream `cands` (each entry one successful draw of `rand.Int` in
`[0, MaxInt32)`).  A candidate already present in the mapper is skipped
(`continue`); the first fresh one is stored and returned.  `none` means the
stream was exhausted (the Go loop would keep drawing). -/
def setupNewIdentifier (m : InstanceMapper) (envUUID : String)
    (instIndex : Int) : List Int → Option (Int × InstanceMapper)
  | [] => none
  | ident :: rest =>
    if (mapperLoad m ident).isSome then
      setupNewIdentifier m envUUID instIndex rest
    else
      some (ident, mapperStore m ident ⟨envUUID, instIndex⟩)

/-- The global environments map (`environments` package var): UUID to
environment. -/
abbrev EnvMap := List (String × wasmEnvironment)

/-- Lookup `environments[uuid]` in the global map. -/
def envLookup (envs : EnvMap) (uuid : String) : Option wasmEnvironment :=
  (envs.find? (fun p => p.1 == uuid)).map (·.2)

/-- The package-level shared state of `rwasm`: the environments map and the
instance mapper. -/
structure RwasmState where
  environments : EnvMap
  instanceMapper : InstanceMapper
deriving Repr

/-- Model of `instanceForIdentifier` from the source: mapper load, environment
lookup, `instanceAtIndex`, then the reentrancy guard
`needsFFIResult && inst.ffiResult != nil`.  `none` is a panic escaping from
`instanceAtIndex`. -/
def instanceForIdentifier (s : RwasmState) (ident : Int)
    (needsFFIResult : Bool) : Option (Except String wasmInstance) :=
  match mapperLoad s.instanceMapper ident with
  | none => some (.error "instance does not exist")
  | some ref =>
    match envLookup s.environments ref.EnvUUID with
    | none => some (.error "environment does not exist")
    | some env =>
      match instanceAtIndex env.instances ref.InstIndex with
      | none => none
      | some (.error e) => some (.error ("failed to instanceAtIndex: " ++ e))
      | some (.ok inst) =>
        if needsFFIResult && inst.ffiResult.isSome then
          some (.error "cannot use instance for host call with existing call in progress")
        else
          some (.ok inst)

/-- The cursor advance at the top of `useInstance`:
`if instIndex == len(instances)-1 { instIndex = 0 } else { instIndex++ }`. -/
def useInstanceAdvance (instIndex : Int) (len : Nat) : Int :=
  if instIndex == (len : Int) - 1 then 0 else instIndex + 1

/-- The selection step of `useInstance`: advance the cursor under the lock,
then read `w.instances[instIndex]` (unguarded — `none` is a panic).
Returns the selected instance and the environment with the moved cursor. -/
def useInstancePick (w : wasmEnvironment) :
    Option wasmInstance × wasmEnvironment :=
  let newIdx := useInstanceAdvance w.instIndex w.instances.length
  (sliceGet w.instances newIdx, { w with instIndex := newIdx })

theorem sliceGet_eq_some {l : List α} {i : Int} {a : α}
    (h : sliceGet l i = some a) :
    0 ≤ i ∧ i < (l.length : Int) ∧ l.get? i.toNat = some a := by
  unfold sliceGet at h
  split at h
  next h0 =>
    refine ⟨h0, ?_, h⟩
    have := (List.get?_eq_some.mp h).1
    omega
  next => exact absurd h (by simp)

theorem mapperLoad_store_self (m : InstanceMapper) (k : Int)
    (r : instanceReference) : mapperLoad (mapperStore m k r) k = some r := by
  simp [mapperLoad, mapperStore, List.find?_cons_of_pos]

theorem find?_filter_ne (m : InstanceMapper) (k k2 : Int) (h : k2 ≠ k) :
    List.find? (fun p => p.1 == k2) (m.filter (fun p => p.1 != k)) =
      List.find? (fun p => p.1 == k2) m := by
  induction m with
  | nil => rfl
  | cons a l ih =>
    by_cases ha : a.1 = k
    · have h1 : (a.1 != k) = false := by simp [ha]
      have h2 : (a.1 == k2) = false := by simp [ha]; omega
      simp [List.filter_cons, List.find?_cons, h1, h2, ih]
    · have h1 : (a.1 != k) = true := by simp [ha]
      by_cases hk2 : a.1 = k2
      · simp [List.filter_cons, List.find?_cons, h1, hk2, h]
      · have h2 : (a.1 == k2) = false := by simp [hk2]
        simp [List.filter_cons, List.find?_cons, h1, h2, ih]

theorem mapperLoad_store_ne (m : InstanceMapper) (k k2 : Int)
    (r : instanceReference) (h : k2 ≠ k) :
    mapperLoad (mapperStore m k r) k2 = mapperLoad m k2 := by
  unfold mapperLoad mapperStore
  rw [List.find?_cons_of_neg _ (by simp; omega), find?_filter_ne m k k2 h]

theorem setupNewIdentifier_spec (m : InstanceMapper) (u : String) (i : Int) :
    ∀ cands t m2, setupNewIdentifier m u i cands = some (t, m2) →
      mapperLoad m t = none ∧ m2 = mapperStore m t ⟨u, i⟩ := by
  intro cands
  induction cands with
  | nil => intro t m2 h; simp [setupNewIdentifier] at h
  | cons c rest ih =>
    intro t m2 h
    unfold setupNewIdentifier at h
    split at h
    · exact ih t m2 h
    next hc =>
      obtain ⟨rfl, rfl⟩ := Prod.mk.injEq .. ▸ Option.some.inj h
      exact ⟨Option.not_isSome_iff_eq_none.mp hc, rfl⟩

/-- C10.  `useInstance` reads `w.instances[instIndex]` with no emptiness
guard: on an empty pool, or when the cursor sits at or beyond the pool
length (after a shrink), the access is out of bounds (a panic, modelled
`none`).  Under the precondition `0 ≤ instIndex < len(instances)` (which
forces a non-empty pool) the access is in bounds and the cursor advances to
`(instIndex + 1) % len(instances)`. -/
theorem useInstance_bounds (w : wasmEnvironment) :
    ((w.instances = [] ∨ (w.instances.length : Int) ≤ w.instIndex) →
      (useInstancePick w).1 = none) ∧
    (0 ≤ w.instIndex → w.instIndex < (w.instances.length : Int) →
      (useInstancePick w).2.instIndex =
          (w.instIndex + 1) % (w.instances.length : Int) ∧
        (useInstancePick w).1 =
          w.instances.get? ((w.instIndex + 1) %
            (w.instances.length : Int)).toNat ∧
        ((useInstancePick w).1).isSome = true) := by
  constructor
  · rintro (h | h)
    · simp only [useInstancePick, sliceGet, h]
      split <;> simp
    · simp only [useInstancePick, sliceGet, useInstanceAdvance]
      have hne : ((w.instIndex == (w.instances.length : Int) - 1) : Bool) = false := by
        simp; omega
      rw [hne]
      simp only [Bool.false_eq_true, if_false]
      rw [if_pos (by omega : (0:Int) ≤ w.instIndex + 1)]
      exact List.get?_eq_none.mpr (by omega)
  · intro h0 hlt
    have hmod : useInstanceAdvance w.instIndex w.instances.length =
        (w.instIndex + 1) % (w.instances.length : Int) := by
      unfold useInstanceAdvance
      by_cases he : w.instIndex = (w.instances.length : Int) - 1
      · rw [if_pos (by simp [he])]
        rw [he]
        have h3 : ((w.instances.length : Int) - 1 + 1) =
            (w.instances.length : Int) := by omega
        rw [h3, Int.emod_self]
      · rw [if_neg (by simp [he])]
        rw [Int.emod_eq_of_lt (by omega) (by omega)]
    have hlt2 : ((w.instIndex + 1) % (w.instances.length : Int)).toNat <
        w.instances.length := by
      have h1 : 0 ≤ (w.instIndex + 1) % (w.instances.length : Int) :=
        Int.emod_nonneg _ (by omega)
      have h2 : (w.instIndex + 1) % (w.instances.length : Int) <
          (w.instances.length : Int) :=
        Int.emod_lt_of_pos _ (by omega)
      omega
    refine ⟨by simp [useInstancePick, hmod], ?_, ?_⟩
    · simp only [useInstancePick, sliceGet, hmod]
      rw [if_pos (Int.emod_nonneg _ (by omega))]
    · simp only [useInstancePick, sliceGet, hmod]
      rw [if_pos (Int.emod_nonneg _ (by omega)),
        List.get?_eq_get hlt2]
      rfl

/-- Witness for C10 at a pool of two instances with the cursor at the last
slot: the access succeeds and the cursor wraps to 0. -/
theorem useInstance_bounds_witness :
    (0:Int) ≤ 1 ∧ (1:Int) < ((2:Nat) : Int) ∧
      (useInstancePick ⟨"u", [⟨0, none⟩, ⟨1, none⟩], 1⟩).2.instIndex = 0 ∧
      (useInstancePick ⟨"u", [⟨0, none⟩, ⟨1, none⟩], 1⟩).1 = some ⟨0, none⟩ := by
  have h := (useInstance_bounds ⟨"u", [⟨0, none⟩, ⟨1, none⟩], 1⟩).2
    (by decide) (by decide)
  exact ⟨by decide, by decide, by rw [h.1]; decide, by rw [h.2.1]; decide⟩

/-- C1.  Round-trip of the FFI dispatch.  `useInstance` advances the
cursor under the environment lock and selects `e.instances[instIndex]`;
`setupNewIdentifier(e.UUID, instIndex)` then stores the fresh token.  While
that token is live and the environment looked up during resolution still
has the same instance list (no add or remove in between — its cursor may
have moved), `instanceForIdentifier(t, false)` returns exactly the selected
instance. -/
theorem useInstance_roundtrip
    (s : RwasmState) (e e2 : wasmEnvironment) (inst : wasmInstance)
    (cands : List Int) (t : Int) (m2 : InstanceMapper)
    (hsel : (useInstancePick e).1 = some inst)
    (hsetup : setupNewIdentifier s.instanceMapper e.UUID
      (useInstancePick e).2.instIndex cands = some (t, m2))
    (hlook : envLookup s.environments e.UUID = some e2)
    (hsame : e2.instances = e.instances) :
    instanceForIdentifier ⟨s.environments, m2⟩ t false = some (.ok inst) := by
  obtain ⟨-, rfl⟩ := setupNewIdentifier_spec _ _ _ cands t m2 hsetup
  have hidx : (useInstancePick e).2.instIndex =
      useInstanceAdvance e.instIndex e.instances.length := rfl
  have hget : sliceGet e.instances
      (useInstanceAdvance e.instIndex e.instances.length) = some inst := hsel
  obtain ⟨h0, hlt, hsome⟩ := sliceGet_eq_some hget
  simp only [instanceForIdentifier, mapperLoad_store_self, hlook, hsame]
  rw [hidx, instanceAtIndex_ok_of_lt e.instances _ h0 hlt, hsome]
  simp

/-- Witness for C1: a two-instance environment with the cursor at 0; the
pick selects index 1, the identifier 7 is issued, and resolving 7 returns
the instance at index 1. -/
theorem useInstance_roundtrip_witness :
    (useInstancePick ⟨"u", [⟨0, none⟩, ⟨1, none⟩], 0⟩).1 = some ⟨1, none⟩ ∧
    setupNewIdentifier [] "u"
        (useInstancePick ⟨"u", [⟨0, none⟩, ⟨1, none⟩], 0⟩).2.instIndex [7] =
      some (7, [(7, ⟨"u", 1⟩)]) ∧
    instanceForIdentifier
        ⟨[("u", ⟨"u", [⟨0, none⟩, ⟨1, none⟩], 0⟩)], [(7, ⟨"u", 1⟩)]⟩ 7 false =
      some (.ok ⟨1, none⟩) := by
  refine ⟨by decide, by decide, ?_⟩
  exact useInstance_roundtrip
    ⟨[("u", ⟨"u", [⟨0, none⟩, ⟨1, none⟩], 0⟩)], []⟩
    ⟨"u", [⟨0, none⟩, ⟨1, none⟩], 0⟩ ⟨"u", [⟨0, none⟩, ⟨1, none⟩], 0⟩
    ⟨1, none⟩ [7] 7 [(7, ⟨"u", 1⟩)] (by decide) (by decide) (by decide) rfl

/-- C4.  `setupNewIdentifier` never overwrites a live registry entry: a
returned token was absent from the mapper before the call, the new mapper
is exactly the old one extended at that token, every other token's entry is
untouched, key-uniqueness of the registry is preserved, and a second
identifier issued while the first is still live is distinct from it. -/
theorem setupNewIdentifier_unique
    (m : InstanceMapper) (u : String) (i : Int) (cands : List Int)
    (t : Int) (m2 : InstanceMapper)
    (h : setupNewIdentifier m u i cands = some (t, m2)) :
    mapperLoad m t = none ∧
    mapperLoad m2 t = some ⟨u, i⟩ ∧
    (∀ t2, t2 ≠ t → mapperLoad m2 t2 = mapperLoad m t2) ∧
    ((m.map Prod.fst).Nodup → (m2.map Prod.fst).Nodup) ∧
    (∀ u2 i2 cands2 t2 m3,
      setupNewIdentifier m2 u2 i2 cands2 = some (t2, m3) → t2 ≠ t) := by
  obtain ⟨hfresh, rfl⟩ := setupNewIdentifier_spec m u i cands t m2 h
  refine ⟨hfresh, mapperLoad_store_self m t ⟨u, i⟩,
    fun t2 ht2 => mapperLoad_store_ne m t t2 ⟨u, i⟩ ht2, ?_, ?_⟩
  · intro hnd
    unfold mapperStore
    simp only [List.map_cons, List.nodup_cons]
    constructor
    · intro hmem
      obtain ⟨p, hp, hp1⟩ := List.mem_map.mp hmem
      have := List.of_mem_filter hp
      simp [hp1] at this
    · exact List.Nodup.sublist
        (List.Sublist.map Prod.fst (List.filter_sublist m)) hnd
  · intro u2 i2 cands2 t2 m3 h2
    obtain ⟨hfresh2, -⟩ := setupNewIdentifier_spec _ u2 i2 cands2 t2 m3 h2
    intro he
    rw [he, mapperLoad_store_self] at hfresh2
    exact Option.noConfusion hfresh2

/-- Witness for C4: registry holding token 3; the draw stream collides on 3
twice and then yields 9, which is issued without touching the entry at 3. -/
theorem setupNewIdentifier_unique_witness :
    setupNewIdentifier [(3, ⟨"a", 0⟩)] "b" 1 [3, 3, 9] =
        some (9, [(9, ⟨"b", 1⟩), (3, ⟨"a", 0⟩)]) ∧
      mapperLoad [(3, ⟨"a", 0⟩)] 9 = none ∧
      mapperLoad [(9, ⟨"b", 1⟩), (3, ⟨"a", 0⟩)] 9 = some ⟨"b", 1⟩ ∧
      mapperLoad [(9, ⟨"b", 1⟩), (3, ⟨"a", 0⟩)] 3 = mapperLoad [(3, ⟨"a", 0⟩)] 3 := by
  have h := setupNewIdentifier_unique [(3, ⟨"a", 0⟩)] "b" 1 [3, 3, 9] 9
    [(9, ⟨"b", 1⟩), (3, ⟨"a", 0⟩)] (by decide)
  exact ⟨by decide, h.1, h.2.1, h.2.2.1 3 (by decide)⟩

/-- Model of `setFFIResult` from the source: errors if `ffiResult` is already
non-nil, otherwise stores the data.  Returned alongside the (possibly
updated) instance so that "unchanged on error" is expressible. -/
def setFFIResult (w : wasmInstance) (data : Bytes) :
    Except String Unit × wasmInstance :=
  if w.ffiResult.isSome then
    (.error "instance ffiResult is already set", w)
  else
    (.ok (), { w with ffiResult := some data })

/-- Model of `useFFIResult` from the source: errors if `ffiResult` is nil, otherwise
returns it and (via the deferred assignment) clears it. -/
def useFFIResult (w : wasmInstance) :
    Except String Bytes × wasmInstance :=
  match w.ffiResult with
  | none => (.error "instance ffiResult is not set", w)
  | some r => (.ok r, { w with ffiResult := none })

theorem instanceForIdentifier_inv {s : RwasmState} {t : Int}
    {inst : wasmInstance}
    (h : instanceForIdentifier s t false = some (.ok inst)) :
    ∃ ref env, mapperLoad s.instanceMapper t = some ref ∧
      envLookup s.environments ref.EnvUUID = some env ∧
      instanceAtIndex env.instances ref.InstIndex = some (.ok inst) := by
  unfold instanceForIdentifier at h
  rcases hm : mapperLoad s.instanceMapper t with _ | ref
  · simp [hm] at h
  · simp only [hm] at h
    rcases he : envLookup s.environments ref.EnvUUID with _ | env
    · simp [he] at h
    · simp only [he] at h
      rcases hi : instanceAtIndex env.instances ref.InstIndex with _ | er
      · simp [hi] at h
      · rcases er with e | inst2
        · simp [hi] at h
        · simp only [hi] at h
          simp at h
          subst h
          exact ⟨ref, env, rfl, he, hi⟩

/-- C5.  Reentrancy guard: if an identifier resolves (with
`needsFFIResult = false`) to an instance, then when that instance has a
staged `ffiResult` the same resolution with `needsFFIResult = true` fails
with the reentrant-call error, and when it has none the `true` call returns
the same instance. -/
theorem instanceForIdentifier_reentrancy
    (s : RwasmState) (t : Int) (inst : wasmInstance)
    (h : instanceForIdentifier s t false = some (.ok inst)) :
    (inst.ffiResult.isSome →
      instanceForIdentifier s t true =
        some (.error "cannot use instance for host call with existing call in progress")) ∧
    (inst.ffiResult = none →
      instanceForIdentifier s t true = some (.ok inst)) := by
  obtain ⟨ref, env, hm, he, hi⟩ := instanceForIdentifier_inv h
  constructor
  · intro hsome
    simp only [instanceForIdentifier, hm, he, hi]
    rw [if_pos (by simp [hsome])]
  · intro hnone
    simp only [instanceForIdentifier, hm, he, hi]
    rw [if_neg (by simp [hnone])]

/-- Witness for C5: a one-instance environment whose instance has a staged
result; resolving with `needsFFIResult = true` is rejected. -/
theorem instanceForIdentifier_reentrancy_witness :
    instanceForIdentifier
        ⟨[("u", ⟨"u", [⟨0, some [1]⟩], 0⟩)], [(7, ⟨"u", 0⟩)]⟩ 7 false =
      some (.ok ⟨0, some [1]⟩) ∧
    instanceForIdentifier
        ⟨[("u", ⟨"u", [⟨0, some [1]⟩], 0⟩)], [(7, ⟨"u", 0⟩)]⟩ 7 true =
      some (.error "cannot use instance for host call with existing call in progress") := by
  refine ⟨by rfl, ?_⟩
  exact (instanceForIdentifier_reentrancy
    ⟨[("u", ⟨"u", [⟨0, some [1]⟩], 0⟩)], [(7, ⟨"u", 0⟩)]⟩ 7 ⟨0, some [1]⟩
    (by rfl)).1 (by decide)

/-- C6.  `ffiResult` is set at most once per cycle: `setFFIResult` succeeds
exactly when nothing is staged and leaves a staged value untouched
otherwise; a successful `useFFIResult` hands back the staged bytes and
clears the field, after which `setFFIResult` succeeds again. -/
theorem setFFIResult_once (w : wasmInstance) (data data2 : Bytes) :
    (w.ffiResult = none →
      setFFIResult w data = (.ok (), { w with ffiResult := some data }) ∧
      (setFFIResult { w with ffiResult := some data } data2).1.isOk = false ∧
      (setFFIResult { w with ffiResult := some data } data2).2 =
        { w with ffiResult := some data }) ∧
    (∀ r, w.ffiResult = some r →
      setFFIResult w data = (.error "instance ffiResult is already set", w) ∧
      useFFIResult w = (.ok r, { w with ffiResult := none }) ∧
      (setFFIResult { w with ffiResult := none } data2).1.isOk = true) := by
  constructor
  · intro hnone
    refine ⟨?_, ?_, ?_⟩ <;>
      simp [setFFIResult, hnone, Except.isOk, Except.toBool]
  · intro r hr
    refine ⟨?_, ?_, ?_⟩
    · simp [setFFIResult, hr]
    · simp only [useFFIResult, hr]
    · simp [setFFIResult, Except.isOk, Except.toBool]

/-- Witness for C6 at a concrete instance with nothing staged, then with a
staged value. -/
theorem setFFIResult_once_witness :
    setFFIResult ⟨5, none⟩ [1, 2] = (.ok (), ⟨5, some [1, 2]⟩) ∧
    setFFIResult ⟨5, some [1, 2]⟩ [9] =
      (.error "instance ffiResult is already set", ⟨5, some [1, 2]⟩) ∧
    useFFIResult ⟨5, some [1, 2]⟩ = (.ok [1, 2], ⟨5, none⟩) ∧
    (setFFIResult ⟨5, none⟩ [9]).1.isOk = true := by
  have h1 := (setFFIResult_once ⟨5, none⟩ [1, 2] [9]).1 rfl
  have h2 := (setFFIResult_once ⟨5, some [1, 2]⟩ [9] [9]).2 [1, 2] rfl
  exact ⟨h1.1, h2.1, h2.2.1, h2.2.2⟩

/-- A start hook exported by the module instance.  `none` models an absent
export (or a failed export lookup, which the source treats the same);
`some r` a present hook whose invocation returns `r`. -/
abbrev StartHook := Option (Except String Unit)

/-- The exports of a freshly constructed `wasmer.Instance` that
`addInstance` consults: the WASI start function, the exported `_start`
function and the exported `init` function. -/
structure ModuleExports where
  wasiStart : StartHook
  startFn : StartHook
  initFn : StartHook
deriving Repr

/-- The order in which `addInstance` invoked start hooks. -/
inductive StartEvent
  | wasiStart
  | start
  | initFn
deriving DecidableEq, Repr

/-- The `init` phase of `addInstance`: call the exported `init` function if
present; on success append the new instance. -/
def addInstanceInitPhase (exps : ModuleExports) (newTag : Nat)
    (instances : List wasmInstance) (evs : List StartEvent) :
    Except String Unit × List wasmInstance × List StartEvent :=
  match exps.initFn with
  | some (.error e) =>
    (.error ("failed to init: " ++ e), instances, evs ++ [.initFn])
  | some (.ok ()) =>
    (.ok (), instances ++ [⟨newTag, none⟩], evs ++ [.initFn])
  | none => (.ok (), instances ++ [⟨newTag, none⟩], evs)

/-- Model of `addInstance` from the source.  `compileRes` is the outcome of
`w.internals()` (compile module, build store and imports — its failure is
`failed to ModuleBytes`); `instRes` the outcome of `wasmer.NewInstance`,
yielding the instance's exports.  The source then calls the WASI start
function if present, otherwise the exported `_start` if present, then the
exported `init` if present; any failure returns before the new instance is
appended to the pool.  The returned triple is (error status, resulting
instance list, ordered start hooks invoked). -/
def addInstance (compileRes : Except String Unit)
    (instRes : Except String ModuleExports) (newTag : Nat)
    (instances : List wasmInstance) :
    Except String Unit × List wasmInstance × List StartEvent :=
  match compileRes with
  | .error e => (.error ("failed to ModuleBytes: " ++ e), instances, [])
  | .ok () =>
    match instRes with
    | .error e => (.error ("failed to NewInstance: " ++ e), instances, [])
    | .ok exps =>
      match exps.wasiStart with
      | some (.error e) =>
        (.error ("failed to wasiStart: " ++ e), instances, [.wasiStart])
      | some (.ok ()) =>
        addInstanceInitPhase exps newTag instances [.wasiStart]
      | none =>
        match exps.startFn with
        | some (.error e) =>
          (.error ("failed to _start: " ++ e), instances, [.start])
        | some (.ok ()) =>
          addInstanceInitPhase exps newTag instances [.start]
        | none => addInstanceInitPhase exps newTag instances []

/-- C7.  Instantiation protocol and atomicity of `addInstance`: on any
failure (compilation, instantiation, or either start hook) the instance
pool is unchanged; on success exactly the one new instance is appended.
The hook-invocation trace is one of the six shapes in which a start hook
(WASI start, else `_start`) comes strictly before `init`; the WASI start is
invoked only when exported, `_start` only when the WASI start is absent and
`_start` is exported, and `init` only when exported. -/
theorem addInstance_protocol (compileRes : Except String Unit)
    (instRes : Except String ModuleExports) (newTag : Nat)
    (instances : List wasmInstance) :
    ((addInstance compileRes instRes newTag instances).1.isOk = false →
      (addInstance compileRes instRes newTag instances).2.1 = instances) ∧
    ((addInstance compileRes instRes newTag instances).1.isOk = true →
      (addInstance compileRes instRes newTag instances).2.1 =
        instances ++ [⟨newTag, none⟩]) ∧
    (let evs := (addInstance compileRes instRes newTag instances).2.2
     (evs = [] ∨ evs = [.wasiStart] ∨ evs = [.start] ∨ evs = [.initFn] ∨
        evs = [.wasiStart, .initFn] ∨ evs = [.start, .initFn]) ∧
      (∀ exps, instRes = .ok exps →
        (StartEvent.wasiStart ∈ evs → exps.wasiStart.isSome) ∧
        (StartEvent.start ∈ evs →
          exps.wasiStart = none ∧ exps.startFn.isSome) ∧
        (StartEvent.initFn ∈ evs → exps.initFn.isSome))) := by
  rcases compileRes with e | ⟨⟩
  · refine ⟨fun _ => rfl, ?_, ?_⟩
    · intro h; simp [addInstance, Except.isOk, Except.toBool] at h
    · refine ⟨Or.inl rfl, ?_⟩
      intro exps hex
      simp [addInstance]
  · rcases instRes with e | exps
    · refine ⟨fun _ => rfl, ?_, ?_⟩
      · intro h; simp [addInstance, Except.isOk, Except.toBool] at h
      · exact ⟨Or.inl rfl, fun exps hex => by simp at hex⟩
    · obtain ⟨ws, st, ini⟩ := exps
      rcases ws with _ | ⟨e | ⟨⟩⟩ <;> rcases st with _ | ⟨e2 | ⟨⟩⟩ <;>
        rcases ini with _ | ⟨e3 | ⟨⟩⟩ <;>
        refine ⟨?_, ?_, ?_, ?_⟩ <;>
        simp [addInstance, addInstanceInitPhase, Except.isOk, Except.toBool]

/-- Witness for C7: a module exporting a failing WASI start — the pool is
unchanged and only the WASI hook ran — and then one exporting a succeeding
WASI start plus `init`, where the instance is appended after both hooks. -/
theorem addInstance_protocol_witness :
    (addInstance (.ok ()) (.ok ⟨some (.error "boom"), none, some (.ok ())⟩)
        3 [⟨0, none⟩]).2.1 = [⟨0, none⟩] ∧
    (addInstance (.ok ()) (.ok ⟨some (.ok ()), none, some (.ok ())⟩)
        3 [⟨0, none⟩]).2.1 = [⟨0, none⟩, ⟨3, none⟩] ∧
    (addInstance (.ok ()) (.ok ⟨some (.ok ()), none, some (.ok ())⟩)
        3 [⟨0, none⟩]).2.2 = [.wasiStart, .initFn] := by
  have h1 := (addInstance_protocol (.ok ())
    (.ok ⟨some (.error "boom"), none, some (.ok ())⟩) 3 [⟨0, none⟩]).1
  have h2 := (addInstance_protocol (.ok ())
    (.ok ⟨some (.ok ()), none, some (.ok ())⟩) 3 [⟨0, none⟩]).2.1
  exact ⟨h1 (by decide), h2 (by decide), by decide⟩

/-- Log severities used by the internal vlog logger. -/
inductive LogLevel
  | errorLvl
  | warnLvl
deriving DecidableEq, Repr

/-- Model of `graphql_query` from `rwasm/api/api_graphql.go`.  External collaborators
are parameters: `memExport` the instance's `memory` export contents,
`doFn` the `GraphQLClient.Do` capability (endpoint bytes, query bytes to
response), `marshalFn` the `json.Marshal` of the response.  The result is
`none` on a panic, otherwise the int32 return value to the guest, the log
entries emitted on the internal logger, whether the GraphQL capability was
invoked, and the instance as left by `SetFFIResult` (whose error return the
source discards), `none` when no instance was resolved. -/
def graphql_query (s : RwasmState) (memExport : Option Bytes)
    (doFn : Bytes → Bytes → Except String Bytes)
    (marshalFn : Bytes → Except String Bytes)
    (endpointPointer endpointSize queryPointer querySize identifier : Int) :
    Option (Int × List (LogLevel × String) × Bool × Option wasmInstance) :=
  match instanceForIdentifier s identifier true with
  | none => none
  | some (.error e) =>
    some (-1,
      [(.errorLvl,
        "[rwasm] alert: invalid identifier used, potential malicious activity: " ++ e)],
      false, none)
  | some (.ok inst) =>
    match readMemory memExport endpointPointer endpointSize with
    | none => none
    | some _endpointBytes =>
      match readMemory memExport queryPointer querySize with
      | none => none
      | some _queryBytes =>
        match doFn _endpointBytes _queryBytes with
        | .error e =>
          some (-1, [(.errorLvl, "failed to GraphQLClient.Do: " ++ e)],
            true, some inst)
        | .ok resp =>
          match marshalFn resp with
          | .error e =>
            some (-1, [(.errorLvl, "[rwasm] alert: failed to Marshal: " ++ e)],
              true, some inst)
          | .ok respBytes =>
            some ((respBytes.length : Int), [], true,
              some ((setFFIResult inst respBytes).2))

/-- Counterexample to C8 as stated: with an unknown identifier the host
call does return the sentinel −1 without touching the capability, but the
event is logged at ERROR level (`InternalLogger().Error(...)` in the
source), not at warning level as the claim states. -/
theorem graphql_query_unknown_ident_logs_error :
    graphql_query ⟨[], []⟩ none (fun _ _ => .ok []) (fun _ => .ok [])
        0 0 0 0 7 =
      some (-1,
        [(.errorLvl,
          "[rwasm] alert: invalid identifier used, potential malicious activity: instance does not exist")],
        false, none) ∧
    LogLevel.errorLvl ≠ LogLevel.warnLvl := by
  exact ⟨rfl, by decide⟩

/-- C8 amended.  For every identifier with no registry entry, a
`graphql_query` host call performs no capability invocation, logs the event
at error level as potential malicious activity, and returns the sentinel
−1 to the guest. -/
theorem graphql_query_unknown_ident (s : RwasmState) (memExport : Option Bytes)
    (doFn : Bytes → Bytes → Except String Bytes)
    (marshalFn : Bytes → Except String Bytes)
    (ep es qp qs t : Int)
    (h : mapperLoad s.instanceMapper t = none) :
    graphql_query s memExport doFn marshalFn ep es qp qs t =
      some (-1,
        [(.errorLvl,
          "[rwasm] alert: invalid identifier used, potential malicious activity: instance does not exist")],
        false, none) := by
  simp only [graphql_query, instanceForIdentifier, h]
  rfl

/-- Witness for the amended C8 at a one-entry registry and an identifier
that was never issued. -/
theorem graphql_query_unknown_ident_witness :
    mapperLoad [(3, ⟨"u", 0⟩)] 7 = none ∧
    graphql_query ⟨[], [(3, ⟨"u", 0⟩)]⟩ (some [1])
        (fun _ _ => .ok [2]) (fun b => .ok b) 0 1 0 1 7 =
      some (-1,
        [(.errorLvl,
          "[rwasm] alert: invalid identifier used, potential malicious activity: instance does not exist")],
        false, none) := by
  refine ⟨by decide, ?_⟩
  exact graphql_query_unknown_ident ⟨[], [(3, ⟨"u", 0⟩)]⟩ (some [1])
    (fun _ _ => .ok [2]) (fun b => .ok b) 0 1 0 1 7 (by decide)

/-- Grav message types used for Reactr job replies (`rt/reactr.go`). -/
def MsgTypeReactrJobErr : String := "reactr.joberr"

/-- Topic for a `RunErr` returned from a Wasm Runnable. -/
def MsgTypeReactrRunErr : String := "reactr.runerr"

/-- Topic for a successful job result. -/
def MsgTypeReactrResult : String := "reactr.result"

/-- Topic for a job that returned no result. -/
def MsgTypeReactrNilResult : String := "reactr.nil"

/-- A Grav bus message as `Listen` builds it: type, parent ID, body and
the reply-to UUID (set only through `SetReplyTo`). -/
structure GravMessage where
  msgType : String
  parentID : String
  body : Bytes
  replyTo : Option String
deriving DecidableEq, Repr

/-- Model of `grav.NewMsgWithParentID`. -/
def NewMsgWithParentID (msgType parentID : String) (body : Bytes) :
    GravMessage :=
  ⟨msgType, parentID, body, none⟩

/-- Model of `msg.SetReplyTo`. -/
def SetReplyTo (m : GravMessage) (uuid : String) : GravMessage :=
  { m with replyTo := some uuid }

/-- UTF-8 bytes of a Go string conversion `[]byte(s)`. -/
def strBytes (s : String) : Bytes :=
  s.toUTF8.toList.map (fun c => c.toNat)

/-- The error returned by `Then()` in `Listen`: either a `rt.RunErr`
(detected by `errors.As`), carrying its `Error()` string, or any other
host-side error with its `Error()` string. -/
inductive ListenError
  | runErr (errString : String)
  | hostErr (errString : String)
deriving DecidableEq, Repr

/-- The dynamic type of a non-nil job result, as `Listen` switches on it:
a `grav.Message`, a `[]byte`, a `string`, or anything else — the last
carrying the outcome of `json.Marshal` on it (an external call, so a
parameter of the value). -/
inductive JobResultValue
  | msgVal (m : GravMessage)
  | bytesVal (b : Bytes)
  | strVal (s2 : String)
  | otherVal (jsonRes : Except String Bytes)
deriving Repr

/-- The reply construction in `Reactr.Listen` (`rt/reactr.go`): given the
inbound message's UUID and parent ID and the job outcome, build the reply
message published on the bus. -/
def listenReply (msgUUID msgParentID : String)
    (outcome : Except ListenError (Option JobResultValue)) : GravMessage :=
  match outcome with
  | .error (.runErr es) =>
    NewMsgWithParentID MsgTypeReactrRunErr msgParentID (strBytes es)
  | .error (.hostErr es) =>
    NewMsgWithParentID MsgTypeReactrJobErr msgParentID (strBytes es)
  | .ok none => NewMsgWithParentID MsgTypeReactrNilResult msgParentID []
  | .ok (some (.msgVal m)) => SetReplyTo m msgUUID
  | .ok (some (.bytesVal b)) =>
    NewMsgWithParentID MsgTypeReactrResult msgParentID b
  | .ok (some (.strVal s2)) =>
    NewMsgWithParentID MsgTypeReactrResult msgParentID (strBytes s2)
  | .ok (some (.otherVal (.ok j))) =>
    NewMsgWithParentID MsgTypeReactrResult msgParentID j
  | .ok (some (.otherVal (.error e))) =>
    NewMsgWithParentID MsgTypeReactrJobErr msgParentID
      (strBytes ("failed to Marshal job result: " ++ e))

/-- Counterexample to C9 as stated: when the job result is itself a Grav
message (topic `custom` here), `Listen` replies with that message itself —
its topic is `custom`, none of the four topics the claim enumerates. -/
theorem listenReply_msg_counterexample :
    (listenReply "uuid1" "parent1"
        (.ok (some (.msgVal ⟨"custom", "p0", [1], none⟩)))).msgType =
      "custom" ∧
    "custom" ≠ MsgTypeReactrResult ∧ "custom" ≠ MsgTypeReactrNilResult ∧
    "custom" ≠ MsgTypeReactrRunErr ∧ "custom" ≠ MsgTypeReactrJobErr := by
  exact ⟨rfl, by decide, by decide, by decide, by decide⟩

/-- C9 amended.  `Listen` publishes exactly one reply per inbound message:
run-error topic for a `RunErr`, job-error topic for any other job error and
for a result whose JSON marshalling fails, nil topic with empty body for a
nil result, result topic carrying the raw bytes, the string's bytes or the
JSON marshalling for byte-slice, string and other results — except that a
result which is itself a bus message is sent as-is under its own topic,
with its reply-to set to the inbound message's UUID. -/
theorem listenReply_classification (u pid : String)
    (outcome : Except ListenError (Option JobResultValue)) :
    (∀ es, outcome = .error (.runErr es) →
      listenReply u pid outcome =
        ⟨MsgTypeReactrRunErr, pid, strBytes es, none⟩) ∧
    (∀ es, outcome = .error (.hostErr es) →
      listenReply u pid outcome =
        ⟨MsgTypeReactrJobErr, pid, strBytes es, none⟩) ∧
    (outcome = .ok none →
      listenReply u pid outcome = ⟨MsgTypeReactrNilResult, pid, [], none⟩) ∧
    (∀ b, outcome = .ok (some (.bytesVal b)) →
      listenReply u pid outcome = ⟨MsgTypeReactrResult, pid, b, none⟩) ∧
    (∀ s2, outcome = .ok (some (.strVal s2)) →
      listenReply u pid outcome =
        ⟨MsgTypeReactrResult, pid, strBytes s2, none⟩) ∧
    (∀ j, outcome = .ok (some (.otherVal (.ok j))) →
      listenReply u pid outcome = ⟨MsgTypeReactrResult, pid, j, none⟩) ∧
    (∀ e, outcome = .ok (some (.otherVal (.error e))) →
      listenReply u pid outcome =
        ⟨MsgTypeReactrJobErr, pid,
          strBytes ("failed to Marshal job result: " ++ e), none⟩) ∧
    (∀ m, outcome = .ok (some (.msgVal m)) →
      listenReply u pid outcome = { m with replyTo := some u }) := by
  refine ⟨?_, ?_, ?_, ?_, ?_, ?_, ?_, ?_⟩ <;>
    first
      | (rintro rfl; rfl)
      | (intro x h; subst h; rfl)

/-- Witness for C9 (amended) at a run error and at a byte-slice result. -/
theorem listenReply_classification_witness :
    listenReply "u1" "p1" (.error (.runErr "bad")) =
      ⟨MsgTypeReactrRunErr, "p1", strBytes "bad", none⟩ ∧
    listenReply "u1" "p1" (.ok (some (.bytesVal [4, 5]))) =
      ⟨MsgTypeReactrResult, "p1", [4, 5], none⟩ := by
  exact ⟨(listenReply_classification "u1" "p1"
      (.error (.runErr "bad"))).1 "bad" rfl,
    (listenReply_classification "u1" "p1"
      (.ok (some (.bytesVal [4, 5])))).2.2.2.1 [4, 5] rfl⟩
